import Mathlib

/-!
Verification development for the tpswipe touchpad gesture detector
(src/tpswipe.go). The Go source is shallowly embedded: machine integers
become Int, timestamps become Nat milliseconds passed explicitly to every
operation that reads the clock, the gesture channel becomes a list of
emitted gestures, and the two runtime panics the code can hit (slice index
out of range) are modelled by Option with none for a panic.

Two floating-point helpers are modelled by their exact-real idealization,
since IEEE float behaviour is outside the embedding:
- math.Sqrt followed by int truncation on a nonnegative integer is the
  integer square root (Nat.sqrt);
- int(math.Atan2(dy,dx)*180/pi) is modelled by atan2deg below, which is
  exact on the axis and diagonal rays and returns, inside each open octant,
  a representative integer angle lying in the same direction bucket that
  the true truncated angle falls in, except in the one-degree bands
  [135,136), [225,226), [315,316) just past the diagonals. The program
  observes the angle only through the direction buckets of getDirection.
-/

/-! ## Gesture data model (tpswipe.go lines 22-49) -/

inductive gestureType
  | UNKNOWN
  | SWIPE_UP
  | SWIPE_DOWN
  | SWIPE_LEFT
  | SWIPE_RIGHT
  | PINCH
  | SPREAD
deriving DecidableEq, Repr

open gestureType

def DIST_SWIPE : Int := 1100

def DIST_OTHER : Int := 500

def CHECK_DELAY : Nat := 50

structure Gesture where
  GestureType : gestureType
  FingerCount : Int
deriving DecidableEq, Repr

/-! ## Geometry helpers (tpswipe.go lines 425-452) -/

/-- Fuel-driven integer square root: counts the answer up while its
successor square still fits. Structurally recursive so that the kernel
can evaluate it on concrete inputs; proved equal to Nat.sqrt below. -/
def isqrtAux (n : Nat) : Nat → Nat → Nat
  | 0, acc => acc
  | fuel + 1, acc => if (acc + 1) * (acc + 1) ≤ n then isqrtAux n fuel (acc + 1) else acc

def intSqrt (n : Nat) : Nat := isqrtAux n n 0

/-- Model of calculateDistance: int(math.Sqrt((x-x0)^2 + (y-y0)^2)),
with the float square root and truncation modelled as the integer square
root of the exact nonnegative integer argument. -/
def calculateDistance (x0 y0 x y : Int) : Int :=
  Int.ofNat (intSqrt ((x - x0) * (x - x0) + (y - y0) * (y - y0)).toNat)

/-- The running total of the Go loop in calculateCircumference: starting
from previous point p0, add the distance from the previous point to each
point of the list in turn, and finally close the polygon with the distance
from the first point back to the final previous point. -/
def calcPerimeter (first p0 : Int × Int) : List (Int × Int) → Int
  | [] => calculateDistance first.1 first.2 p0.1 p0.2
  | p :: rest => calculateDistance p0.1 p0.2 p.1 p.2 + calcPerimeter first p rest

/-- Model of calculateCircumference. A list of exactly two points returns
the direct distance between them; the empty list makes the Go code index
points[0] out of range, modelled as none; otherwise the perimeter loop
runs, starting with the degenerate edge from points[0] to itself exactly
as the Go loop does. -/
def calculateCircumference : List (Int × Int) → Option Int
  | [] => none
  | [p, q] => some (calculateDistance p.1 p.2 q.1 q.2)
  | p :: rest => some (calcPerimeter p p (p :: rest))

/-! ## Finger tracker (tpswipe.go lines 55-185) -/

structure Finger where
  FirstX : Int := 0
  FirstY : Int := 0
  LastX : Int := 0
  LastY : Int := 0
  HasPositionX : Bool := false
  HasPositionY : Bool := false
  IsActive : Bool := false
  ActivationTime : Nat := 0
deriving DecidableEq, Repr

def Finger.reset (f : Finger) (now : Nat) : Finger :=
  { f with ActivationTime := now, HasPositionX := false, HasPositionY := false }

def Finger.activate (f : Finger) (now : Nat) : Finger :=
  Finger.reset { f with IsActive := true } now

def Finger.deactivate (f : Finger) : Finger :=
  { f with IsActive := false }

def Finger.setPositionX (f : Finger) (x : Int) : Finger :=
  let f1 := if f.HasPositionX then f else { f with FirstX := x, HasPositionX := true }
  { f1 with LastX := x }

def Finger.setPositionY (f : Finger) (y : Int) : Finger :=
  let f1 := if f.HasPositionY then f else { f with FirstY := y, HasPositionY := true }
  { f1 with LastY := y }

def Finger.hasPosition (f : Finger) : Bool :=
  f.HasPositionX && f.HasPositionY

/-- Exact-real model of int(math.Atan2(dy,dx)*180/pi), the truncated angle
in degrees in the range (-180, 180]. Exact on the axes and diagonals; on
each open octant it returns a fixed interior integer angle of that octant
(see the file header for the fidelity discussion). -/
def atan2deg (dy dx : Int) : Int :=
  if dx = 0 ∧ dy = 0 then 0
  else if dy = 0 then (if 0 < dx then 0 else 180)
  else if dx = 0 then (if 0 < dy then 90 else -90)
  else if 0 < dx ∧ 0 < dy then
    (if dy = dx then 45 else if dy < dx then 22 else 67)
  else if dx < 0 ∧ 0 < dy then
    (if dy = -dx then 135 else if -dx < dy then 112 else 157)
  else if dx < 0 ∧ dy < 0 then
    (if dy = dx then -135 else if dx < dy then -157 else -112)
  else
    (if dy = -dx then -45 else if -dy < dx then -22 else -67)

def Finger.getAngle (f : Finger) : Int :=
  if f.hasPosition then
    let dx := f.LastX - f.FirstX
    let dy := -(f.LastY - f.FirstY)
    let angle := atan2deg dy dx
    if angle < 0 then 360 + angle else angle
  else 0

def Finger.getDirection (f : Finger) : gestureType :=
  let angle := f.getAngle
  if 45 ≤ angle ∧ angle ≤ 135 then SWIPE_UP
  else if 135 ≤ angle ∧ angle ≤ 225 then SWIPE_LEFT
  else if 225 ≤ angle ∧ angle ≤ 315 then SWIPE_DOWN
  else if 315 ≤ angle ∨ angle ≤ 45 then SWIPE_RIGHT
  else UNKNOWN

def Finger.getDistance (f : Finger) : Int :=
  if f.hasPosition then calculateDistance f.LastX f.LastY f.FirstX f.FirstY
  else 0

def Finger.hasSwiped (f : Finger) (distanceThreshold : Int) (now : Nat) : Bool :=
  if !f.hasPosition then false
  else if now - f.ActivationTime < CHECK_DELAY then false
  else distanceThreshold < f.getDistance

/-! ## Raw input events (evdev constants used by tpswipe.go lines 224-366) -/

def EV_SYN : Int := 0

def EV_ABS : Int := 3

def SYN_REPORT : Int := 0

def ABS_MT_SLOT : Int := 47

def ABS_MT_POSITION_X : Int := 53

def ABS_MT_POSITION_Y : Int := 54

def ABS_MT_TRACKING_ID : Int := 57

/-- A raw evdev input event. The Go field Type is renamed etype since Type
is reserved in Lean. -/
structure InputEvent where
  etype : Int
  code : Int
  value : Int
deriving DecidableEq, Repr

/-! ## Event handler state (tpswipe.go lines 190-222) -/

structure EventHandler where
  fingers : Fin 5 → Finger
  currentSlot : Int
  lastGesture : gestureType
  fingerCount : Int
  checkTimer : Nat
  suspend : Bool
  configuredFingers : List Int

instance : DecidableEq EventHandler := fun a b =>
  decidable_of_iff
    (a.fingers = b.fingers ∧ a.currentSlot = b.currentSlot ∧
      a.lastGesture = b.lastGesture ∧ a.fingerCount = b.fingerCount ∧
      a.checkTimer = b.checkTimer ∧ a.suspend = b.suspend ∧
      a.configuredFingers = b.configuredFingers)
    (by
      constructor
      · rintro ⟨h1, h2, h3, h4, h5, h6, h7⟩
        cases a; cases b; simp_all
      · rintro rfl; simp)

def EventHandler.resetFingers (h : EventHandler) (now : Nat) : EventHandler :=
  { h with fingers := fun i => (h.fingers i).reset now, checkTimer := now }

/-- The five trackers in slot order, as iterated by the Go range loops. -/
def fingerList (h : EventHandler) : List Finger :=
  [h.fingers 0, h.fingers 1, h.fingers 2, h.fingers 3, h.fingers 4]

/-- The five trackers paired with their slot indices, for the swipe loop
which tests the loop index against 0. -/
def indexedFingerList (h : EventHandler) : List (Nat × Finger) :=
  [(0, h.fingers 0), (1, h.fingers 1), (2, h.fingers 2), (3, h.fingers 3), (4, h.fingers 4)]

/-- Bounds-checked conversion of the current slot to an array index; none
models the Go runtime panic on an index outside 0..4. -/
def slotIndex (s : Int) : Option (Fin 5) :=
  if hs : 0 ≤ s ∧ s < 5 then some ⟨s.toNat, by omega⟩ else none

/-! ## Gesture classification (tpswipe.go lines 245-402) -/

/-- The collection loop of calculateGesture: walk the trackers, skip the
inactive ones, return none as soon as an active tracker has not swiped
past DIST_OTHER (the Go code returns UNKNOWN there), and otherwise gather
first and last positions in slot order. -/
def collectPositions (now : Nat) : List Finger → Option (List (Int × Int) × List (Int × Int))
  | [] => some ([], [])
  | f :: rest =>
    if !f.IsActive then collectPositions now rest
    else if !f.hasSwiped DIST_OTHER now then none
    else
      match collectPositions now rest with
      | none => none
      | some (s, e) => some ((f.FirstX, f.FirstY) :: s, (f.LastX, f.LastY) :: e)

/-- Model of EventHandler.calculateGesture. The outer none models the Go
panic inside calculateCircumference on an empty point slice; the value
some UNKNOWN is the explicit UNKNOWN return for an active tracker that has
not moved past DIST_OTHER. -/
def EventHandler.calculateGesture (h : EventHandler) (now : Nat) : Option gestureType :=
  match collectPositions now (fingerList h) with
  | none => some UNKNOWN
  | some (s, e) =>
    match calculateCircumference s, calculateCircumference e with
    | some startC, some endC => some (if startC > endC then PINCH else SPREAD)
    | _, _ => none

/-- Outcome of the straight-swipe loop in detectGesture: earlyReturn for
the Go return statement taken when an active tracker has not swiped past
DIST_SWIPE, and done for a completed (possibly broken-out-of) loop with
the final values of isSwipe and gesture. -/
inductive ScanResult
  | earlyReturn
  | done (isSwipe : Bool) (gesture : gestureType)
deriving DecidableEq, Repr

/-- The straight-swipe loop of detectGesture (tpswipe.go lines 261-291).
Note the candidate direction is recorded only at loop index 0. -/
def swipeScan (now : Nat) : List (Nat × Finger) → Bool → gestureType → ScanResult
  | [], isSwipe, gesture => .done isSwipe gesture
  | (i, f) :: rest, isSwipe, gesture =>
    if !f.IsActive then swipeScan now rest isSwipe gesture
    else if f.hasSwiped DIST_SWIPE now then
      if i = 0 then swipeScan now rest true f.getDirection
      else if f.getDirection ≠ gesture then .done false gesture
      else swipeScan now rest true gesture
    else .earlyReturn

/-- Model of EventHandler.detectGesture. Returns the updated handler and
the list of gestures sent on the Gestures channel; none models a panic
propagated from calculateGesture. -/
def EventHandler.detectGesture (h : EventHandler) (now : Nat) :
    Option (EventHandler × List Gesture) :=
  let timeDiff := now - h.checkTimer
  if !h.configuredFingers.contains h.fingerCount ∨ h.fingerCount < 2 ∨
      timeDiff < CHECK_DELAY then
    some (h, [])
  else
    match swipeScan now (indexedFingerList h) false UNKNOWN with
    | .earlyReturn =>
      if timeDiff > 220 then some (h.resetFingers now, []) else some (h, [])
    | .done isSwipe gesture =>
      if isSwipe then
        if h.lastGesture ≠ gesture then
          some ((EventHandler.resetFingers
              { h with lastGesture := gesture, suspend := true } now),
            [⟨gesture, h.fingerCount⟩])
        else some (h.resetFingers now, [])
      else
        match h.calculateGesture now with
        | none => none
        | some g2 =>
          if g2 ≠ UNKNOWN then
            if h.lastGesture ≠ g2 then
              some ((EventHandler.resetFingers
                  { h with lastGesture := g2, suspend := true } now),
                [⟨g2, h.fingerCount⟩])
            else some (h.resetFingers now, [])
          else some (h.resetFingers now, [])

/-! ## Event ingestion (tpswipe.go lines 224-366) -/

/-- Model of EventHandler.handleAbsEvent; none models the Go runtime panic
from indexing fingers with a current slot outside 0..4. -/
def EventHandler.handleAbsEvent (h : EventHandler) (now : Nat) (e : InputEvent) :
    Option EventHandler :=
  if e.code = ABS_MT_SLOT then some { h with currentSlot := e.value }
  else if e.code = ABS_MT_TRACKING_ID then
    match slotIndex h.currentSlot with
    | none => none
    | some i =>
      let prevCount := h.fingerCount
      let h1 :=
        if e.value = -1 then
          { h with fingerCount := h.fingerCount - 1,
                   fingers := Function.update h.fingers i ((h.fingers i).deactivate) }
        else
          { h with fingerCount := h.fingerCount + 1,
                   fingers := Function.update h.fingers i ((h.fingers i).activate now) }
      let h2 := h1.resetFingers now
      if prevCount = 0 then some { h2 with lastGesture := UNKNOWN, suspend := false }
      else some h2
  else if e.code = ABS_MT_POSITION_X then
    match slotIndex h.currentSlot with
    | none => none
    | some i =>
      some { h with fingers := Function.update h.fingers i ((h.fingers i).setPositionX e.value) }
  else if e.code = ABS_MT_POSITION_Y then
    match slotIndex h.currentSlot with
    | none => none
    | some i =>
      some { h with fingers := Function.update h.fingers i ((h.fingers i).setPositionY e.value) }
  else some h

def EventHandler.handleSynEvent (h : EventHandler) (now : Nat) (e : InputEvent) :
    Option (EventHandler × List Gesture) :=
  if e.code = SYN_REPORT ∧ h.suspend = false then h.detectGesture now
  else some (h, [])

def EventHandler.handleEvent (h : EventHandler) (now : Nat) (e : InputEvent) :
    Option (EventHandler × List Gesture) :=
  if e.etype = EV_SYN then h.handleSynEvent now e
  else if e.etype = EV_ABS then (h.handleAbsEvent now e).map (fun h1 => (h1, []))
  else some (h, [])

/-- Feed a timed event sequence through the handler, collecting all
emitted gestures; none as soon as any event handling panics. -/
def ingest (h : EventHandler) : List (Nat × InputEvent) → Option (EventHandler × List Gesture)
  | [] => some (h, [])
  | (t, e) :: rest =>
    match h.handleEvent t e with
    | none => none
    | some (h1, gs) =>
      match ingest h1 rest with
      | none => none
      | some (h2, gs2) => some (h2, gs ++ gs2)

/-- The handler as built in main: Go zero values for all tracker state,
with the configured finger counts from the parsed configuration. -/
def initialHandler (cfg : List Int) : EventHandler :=
  { fingers := fun _ => {}, currentSlot := 0, lastGesture := UNKNOWN, fingerCount := 0,
    checkTimer := 0, suspend := false, configuredFingers := cfg }

/-! ## Sequences of position updates for the latching invariant -/

inductive PosUpdate
  | px (x : Int)
  | py (y : Int)
deriving DecidableEq, Repr

def applyUpdates (f : Finger) : List PosUpdate → Finger
  | [] => f
  | .px x :: rest => applyUpdates (f.setPositionX x) rest
  | .py y :: rest => applyUpdates (f.setPositionY y) rest

/-! ## Concrete fixtures used by counterexamples and witnesses -/

/-- An active tracker that moved 1200 units to the right along y = 0. -/
def fingerRight0 : Finger :=
  { FirstX := 0, FirstY := 0, LastX := 1200, LastY := 0,
    HasPositionX := true, HasPositionY := true, IsActive := true, ActivationTime := 0 }

/-- An active tracker that moved 1200 units to the right along y = 100. -/
def fingerRightHigh : Finger :=
  { FirstX := 0, FirstY := 100, LastX := 1200, LastY := 100,
    HasPositionX := true, HasPositionY := true, IsActive := true, ActivationTime := 0 }

/-- An active tracker that moved 1200 units screen-up. -/
def fingerUpLong : Finger :=
  { FirstX := 0, FirstY := 0, LastX := 0, LastY := -1200,
    HasPositionX := true, HasPositionY := true, IsActive := true, ActivationTime := 0 }

/-- An active tracker that moved only 100 units, below every threshold. -/
def fingerShortMove : Finger :=
  { FirstX := 0, FirstY := 0, LastX := 100, LastY := 0,
    HasPositionX := true, HasPositionY := true, IsActive := true, ActivationTime := 0 }

/-- An active tracker of a two-finger pinch, moving inward from the left. -/
def pinchFingerA : Finger :=
  { FirstX := 0, FirstY := 0, LastX := 600, LastY := 0,
    HasPositionX := true, HasPositionY := true, IsActive := true, ActivationTime := 0 }

/-- An active tracker of a two-finger pinch, moving inward from the right. -/
def pinchFingerB : Finger :=
  { FirstX := 1300, FirstY := 0, LastX := 700, LastY := 0,
    HasPositionX := true, HasPositionY := true, IsActive := true, ActivationTime := 0 }

/-- Two fingers on slots 1 and 2 (slot 0 inactive), both having swiped
right in parallel: the state the straight-swipe claim is refuted on. -/
def handlerSlots12 : EventHandler :=
  { fingers := fun i => if i.val = 1 then fingerRight0 else
      if i.val = 2 then fingerRightHigh else {},
    currentSlot := 0, lastGesture := UNKNOWN, fingerCount := 2, checkTimer := 0,
    suspend := false, configuredFingers := [2] }

/-- Two fingers on slots 0 and 1, both having swiped right: a state where
the straight-swipe pass succeeds. -/
def handlerSlots01 : EventHandler :=
  { fingers := fun i => if i.val = 0 then fingerRight0 else
      if i.val = 1 then fingerRightHigh else {},
    currentSlot := 0, lastGesture := UNKNOWN, fingerCount := 2, checkTimer := 0,
    suspend := false, configuredFingers := [2] }

/-- Slot 0 swiped right, slot 1 swiped up (direction mismatch), slot 2
moved only 100 units: the radial pass runs and returns UNKNOWN. -/
def handlerMismatch : EventHandler :=
  { fingers := fun i => if i.val = 0 then fingerRight0 else
      if i.val = 1 then fingerUpLong else if i.val = 2 then fingerShortMove else {},
    currentSlot := 0, lastGesture := UNKNOWN, fingerCount := 3, checkTimer := 0,
    suspend := false, configuredFingers := [3] }

/-- A two-finger pinch state: both trackers active, both past DIST_OTHER,
start circumference 1300, end circumference 100. -/
def handlerPinch : EventHandler :=
  { fingers := fun i => if i.val = 0 then pinchFingerA else
      if i.val = 1 then pinchFingerB else {},
    currentSlot := 0, lastGesture := UNKNOWN, fingerCount := 2, checkTimer := 0,
    suspend := false, configuredFingers := [2] }

/-- A handler just after a gesture was emitted and all fingers lifted:
suspended, with the emitted gesture kind remembered and finger count 0. -/
def suspendedHandler : EventHandler :=
  { fingers := fun _ => {}, currentSlot := 0, lastGesture := PINCH, fingerCount := 0,
    checkTimer := 0, suspend := true, configuredFingers := [2] }

def trackEvent9 : InputEvent := ⟨EV_ABS, ABS_MT_TRACKING_ID, 9⟩

/-- The handler state after the suspended handler receives a touch-down
tracking event at finger count 0. -/
def clearedHandler : EventHandler :=
  ((suspendedHandler.handleEvent 200 trackEvent9).getD (suspendedHandler, [])).1

/-- A malformed sequence: slot-select 7 (outside 0..4) followed by a
position update, which indexes the five-element finger array at 7. -/
def slotOutOfRangeSeq : List (Nat × InputEvent) :=
  [(0, ⟨EV_ABS, ABS_MT_SLOT, 7⟩), (0, ⟨EV_ABS, ABS_MT_POSITION_X, 100⟩)]

/-- A sequence reaching a frame report with finger count 2 but no active
tracker: three touch-downs on slot 0 followed by one lift leave the count
at 2 with every tracker inactive, and the report then drives the radial
pass into calculateCircumference of an empty point slice. -/
def emptyDetectSeq : List (Nat × InputEvent) :=
  [(0, ⟨EV_ABS, ABS_MT_TRACKING_ID, 5⟩), (0, ⟨EV_ABS, ABS_MT_TRACKING_ID, 6⟩),
   (0, ⟨EV_ABS, ABS_MT_TRACKING_ID, 7⟩), (0, ⟨EV_ABS, ABS_MT_TRACKING_ID, -1⟩),
   (100, ⟨EV_SYN, SYN_REPORT, 0⟩)]

/-- A fresh tracker with no latched position. -/
def latchFinger : Finger :=
  { FirstX := 0, FirstY := 0, LastX := 0, LastY := 0,
    HasPositionX := false, HasPositionY := false, IsActive := true, ActivationTime := 0 }

def latchUpdates : List PosUpdate := [.px 10, .py 20, .px 30, .py 40]

/-! # Helper lemmas -/

theorem isqrtAux_spec (n : Nat) : ∀ fuel acc, acc * acc ≤ n →
    n < (acc + fuel + 1) * (acc + fuel + 1) →
    isqrtAux n fuel acc * isqrtAux n fuel acc ≤ n ∧
      n < (isqrtAux n fuel acc + 1) * (isqrtAux n fuel acc + 1) := by
  intro fuel
  induction fuel with
  | zero =>
    intro acc h1 h2
    exact ⟨h1, by simpa using h2⟩
  | succ fuel ih =>
    intro acc h1 h2
    simp only [isqrtAux]
    by_cases hc : (acc + 1) * (acc + 1) ≤ n
    · rw [if_pos hc]
      have heq : acc + 1 + fuel + 1 = acc + (fuel + 1) + 1 := by omega
      exact ih (acc + 1) hc (by rw [heq]; exact h2)
    · rw [if_neg hc]
      exact ⟨h1, by omega⟩

/-- The fuel-driven square root agrees with the library square root: the
model of the float computation is the true integer square root. -/
theorem intSqrt_eq_sqrt (n : Nat) : intSqrt n = Nat.sqrt n := by
  have h1 : n < n + 1 := Nat.lt_succ_self n
  have h2 : (n + 1) * 1 ≤ (n + 1) * (n + 1) := Nat.mul_le_mul_left (n + 1) (by omega)
  have h3 : n + 1 ≤ (n + 1) * (n + 1) := by
    calc n + 1 = (n + 1) * 1 := by ring
    _ ≤ (n + 1) * (n + 1) := h2
  have h0 : n < (0 + n + 1) * (0 + n + 1) := by
    simpa using lt_of_lt_of_le h1 h3
  have hs := isqrtAux_spec n n 0 (by simp) h0
  simp only [intSqrt]
  exact Nat.eq_sqrt.mpr hs

theorem reset_HasPositionX (f : Finger) (now : Nat) : (f.reset now).HasPositionX = false := rfl

theorem reset_HasPositionY (f : Finger) (now : Nat) : (f.reset now).HasPositionY = false := rfl

theorem reset_IsActive (f : Finger) (now : Nat) : (f.reset now).IsActive = f.IsActive := rfl

theorem resetFingers_suspend (h : EventHandler) (now : Nat) :
    (h.resetFingers now).suspend = h.suspend := rfl

theorem resetFingers_lastGesture (h : EventHandler) (now : Nat) :
    (h.resetFingers now).lastGesture = h.lastGesture := rfl

theorem resetFingers_currentSlot (h : EventHandler) (now : Nat) :
    (h.resetFingers now).currentSlot = h.currentSlot := rfl

theorem resetFingers_checkTimer (h : EventHandler) (now : Nat) :
    (h.resetFingers now).checkTimer = now := rfl

/-- The direction switch always lands in one of the four swipe cases. -/
theorem getDirection_ne_unknown (f : Finger) : f.getDirection ≠ UNKNOWN := by
  have h : ∀ a : Int, (if 45 ≤ a ∧ a ≤ 135 then SWIPE_UP
      else if 135 ≤ a ∧ a ≤ 225 then SWIPE_LEFT
      else if 225 ≤ a ∧ a ≤ 315 then SWIPE_DOWN
      else if 315 ≤ a ∨ a ≤ 45 then SWIPE_RIGHT
      else UNKNOWN) ≠ UNKNOWN := by
    intro a
    split_ifs <;> simp_all
    omega
  exact h f.getAngle

/-- The circumference computation succeeds on every nonempty point list. -/
theorem calculateCircumference_isSome (ps : List (Int × Int)) (hne : ps ≠ []) :
    (calculateCircumference ps).isSome = true := by
  match ps with
  | [] => exact absurd rfl hne
  | [p] => rfl
  | [p, q] => rfl
  | p :: q :: r :: t => rfl

/-- If the collection loop returns an empty start list, no tracker in the
input was active. -/
theorem collectPositions_nil_inactive (now : Nat) (l : List Finger) :
    ∀ s e, collectPositions now l = some (s, e) → s = [] →
      ∀ f ∈ l, f.IsActive = false := by
  induction l with
  | nil => simp
  | cons f rest ih =>
    intro s e hc hs g hg
    rcases hact : f.IsActive with _ | _
    · rcases List.mem_cons.mp hg with rfl | hg2
      · exact hact
      · exact ih s e (by simpa [collectPositions, hact] using hc) hs g hg2
    · exfalso
      rcases hsw : f.hasSwiped DIST_OTHER now with _ | _
      · simp [collectPositions, hact, hsw] at hc
      · rcases hrest : collectPositions now rest with _ | ⟨s1, e1⟩ <;>
          simp [collectPositions, hact, hsw, hrest] at hc
        subst hs
        exact List.cons_ne_nil _ _ hc.1

/-- The two position lists gathered by the collection loop have equal
lengths. -/
theorem collectPositions_lengths (now : Nat) (l : List Finger) :
    ∀ s e, collectPositions now l = some (s, e) → s.length = e.length := by
  induction l with
  | nil =>
    intro s e hc
    simp only [collectPositions, Option.some.injEq] at hc
    cases hc
    simp
  | cons f rest ih =>
    intro s e hc
    rcases hact : f.IsActive with _ | _
    · exact ih s e (by simpa [collectPositions, hact] using hc)
    · rcases hsw : f.hasSwiped DIST_OTHER now with _ | _
      · simp [collectPositions, hact, hsw] at hc
      · rcases hrest : collectPositions now rest with _ | ⟨s1, e1⟩ <;>
          simp [collectPositions, hact, hsw, hrest] at hc
        obtain ⟨hc1, hc2⟩ := hc
        subst hc1
        subst hc2
        simpa using ih s1 e1 hrest

/-- The collection loop succeeds whenever every active tracker has moved
past the radial threshold. -/
theorem collectPositions_isSome_of_swiped (now : Nat) (l : List Finger)
    (hsw : ∀ f ∈ l, f.IsActive = true → f.hasSwiped DIST_OTHER now = true) :
    ∃ s e, collectPositions now l = some (s, e) := by
  induction l with
  | nil => exact ⟨[], [], rfl⟩
  | cons f rest ih =>
    obtain ⟨s, e, hrest⟩ := ih (fun g hg => hsw g (List.mem_cons_of_mem f hg))
    rcases hact : f.IsActive with _ | _
    · exact ⟨s, e, by simp [collectPositions, hact, hrest]⟩
    · have hswf := hsw f (List.mem_cons_self f rest) hact
      exact ⟨(f.FirstX, f.FirstY) :: s, (f.LastX, f.LastY) :: e,
        by simp [collectPositions, hact, hswf, hrest]⟩

/-- Membership in the five-element tracker list, by slot. -/
theorem mem_fingerList (h : EventHandler) (i : Fin 5) : h.fingers i ∈ fingerList h := by
  fin_cases i <;> simp [fingerList]

/-- The radial classification never panics while some tracker is active. -/
theorem calculateGesture_isSome_of_active (h : EventHandler) (now : Nat)
    (hact : ∃ i : Fin 5, (h.fingers i).IsActive = true) :
    (h.calculateGesture now).isSome = true := by
  obtain ⟨i, hi⟩ := hact
  unfold EventHandler.calculateGesture
  rcases hc : collectPositions now (fingerList h) with _ | ⟨s, e⟩
  · rfl
  · have hs : s ≠ [] := by
      intro hnil
      have := collectPositions_nil_inactive now (fingerList h) s e hc hnil
        (h.fingers i) (mem_fingerList h i)
      rw [hi] at this
      cases this
    have he : e ≠ [] := by
      intro hnil
      have hlen := collectPositions_lengths now (fingerList h) s e hc
      rw [hnil] at hlen
      exact hs (List.eq_nil_of_length_eq_zero hlen)
    have h1 := calculateCircumference_isSome s hs
    have h2 := calculateCircumference_isSome e he
    rcases hcs : calculateCircumference s with _ | cs
    · rw [hcs] at h1; cases h1
    · rcases hce : calculateCircumference e with _ | ce
      · rw [hce] at h2; cases h2
      · simp [hcs, hce]

/-- Branch equation: the detection guard skips the whole cycle. -/
theorem detectGesture_skip (h : EventHandler) (now : Nat)
    (hguard : (!h.configuredFingers.contains h.fingerCount) = true ∨ h.fingerCount < 2 ∨
      now - h.checkTimer < CHECK_DELAY) :
    h.detectGesture now = some (h, []) := by
  simp only [EventHandler.detectGesture]
  rw [if_pos hguard]

/-- Branch equation: an early return from the swipe loop, with the
conditional 220 ms reset. -/
theorem detectGesture_early (h : EventHandler) (now : Nat)
    (hguard : ¬((!h.configuredFingers.contains h.fingerCount) = true ∨ h.fingerCount < 2 ∨
      now - h.checkTimer < CHECK_DELAY))
    (hscan : swipeScan now (indexedFingerList h) false UNKNOWN = ScanResult.earlyReturn) :
    h.detectGesture now =
      if now - h.checkTimer > 220 then some (h.resetFingers now, []) else some (h, []) := by
  simp only [EventHandler.detectGesture, hscan]
  rw [if_neg hguard]

/-- Branch equation: the swipe loop completed with a swipe consensus. -/
theorem detectGesture_swipe (h : EventHandler) (now : Nat) (g : gestureType)
    (hguard : ¬((!h.configuredFingers.contains h.fingerCount) = true ∨ h.fingerCount < 2 ∨
      now - h.checkTimer < CHECK_DELAY))
    (hscan : swipeScan now (indexedFingerList h) false UNKNOWN = ScanResult.done true g) :
    h.detectGesture now =
      if h.lastGesture ≠ g then
        some ((EventHandler.resetFingers { h with lastGesture := g, suspend := true } now),
          [⟨g, h.fingerCount⟩])
      else some (h.resetFingers now, []) := by
  simp only [EventHandler.detectGesture, hscan]
  rw [if_neg hguard, if_pos trivial]

/-- Branch equation: no swipe consensus and the radial pass panics on an
empty point set. -/
theorem detectGesture_radial_none (h : EventHandler) (now : Nat) (g : gestureType)
    (hguard : ¬((!h.configuredFingers.contains h.fingerCount) = true ∨ h.fingerCount < 2 ∨
      now - h.checkTimer < CHECK_DELAY))
    (hscan : swipeScan now (indexedFingerList h) false UNKNOWN = ScanResult.done false g)
    (hcalc : h.calculateGesture now = none) :
    h.detectGesture now = none := by
  simp only [EventHandler.detectGesture, hscan, hcalc]
  rw [if_neg hguard, if_neg Bool.false_ne_true]

/-- Branch equation: no swipe consensus and the radial pass returned the
UNKNOWN sentinel; the fingers are still reset. -/
theorem detectGesture_radial_unknown (h : EventHandler) (now : Nat) (g : gestureType)
    (hguard : ¬((!h.configuredFingers.contains h.fingerCount) = true ∨ h.fingerCount < 2 ∨
      now - h.checkTimer < CHECK_DELAY))
    (hscan : swipeScan now (indexedFingerList h) false UNKNOWN = ScanResult.done false g)
    (hcalc : h.calculateGesture now = some UNKNOWN) :
    h.detectGesture now = some (h.resetFingers now, []) := by
  simp only [EventHandler.detectGesture, hscan, hcalc]
  rw [if_neg hguard, if_neg Bool.false_ne_true, if_neg (by simp : ¬(UNKNOWN ≠ UNKNOWN))]

/-- Branch equation: the radial pass classified a fresh gesture, which is
emitted and suspends detection. -/
theorem detectGesture_radial_emit (h : EventHandler) (now : Nat) (g g2 : gestureType)
    (hguard : ¬((!h.configuredFingers.contains h.fingerCount) = true ∨ h.fingerCount < 2 ∨
      now - h.checkTimer < CHECK_DELAY))
    (hscan : swipeScan now (indexedFingerList h) false UNKNOWN = ScanResult.done false g)
    (hcalc : h.calculateGesture now = some g2) (hne : g2 ≠ UNKNOWN)
    (hlast : h.lastGesture ≠ g2) :
    h.detectGesture now =
      some ((EventHandler.resetFingers { h with lastGesture := g2, suspend := true } now),
        [⟨g2, h.fingerCount⟩]) := by
  simp only [EventHandler.detectGesture, hscan, hcalc]
  rw [if_neg hguard, if_neg Bool.false_ne_true, if_pos hne, if_pos hlast]

/-- Branch equation: the radial pass classified a gesture equal to the
remembered one, which is suppressed. -/
theorem detectGesture_radial_dup (h : EventHandler) (now : Nat) (g g2 : gestureType)
    (hguard : ¬((!h.configuredFingers.contains h.fingerCount) = true ∨ h.fingerCount < 2 ∨
      now - h.checkTimer < CHECK_DELAY))
    (hscan : swipeScan now (indexedFingerList h) false UNKNOWN = ScanResult.done false g)
    (hcalc : h.calculateGesture now = some g2) (hne : g2 ≠ UNKNOWN)
    (hlast : h.lastGesture = g2) :
    h.detectGesture now = some (h.resetFingers now, []) := by
  simp only [EventHandler.detectGesture, hscan, hcalc]
  rw [if_neg hguard, if_neg Bool.false_ne_true, if_pos hne,
    if_neg (by simp [hlast] : ¬(h.lastGesture ≠ g2))]

/-- Gesture detection never panics while some tracker is active. -/
theorem detectGesture_isSome_of_active (h : EventHandler) (now : Nat)
    (hact : ∃ i : Fin 5, (h.fingers i).IsActive = true) :
    (h.detectGesture now).isSome = true := by
  by_cases hguard : (!h.configuredFingers.contains h.fingerCount) = true ∨
      h.fingerCount < 2 ∨ now - h.checkTimer < CHECK_DELAY
  · rw [detectGesture_skip h now hguard]
    rfl
  · rcases hscan : swipeScan now (indexedFingerList h) false UNKNOWN with _ | ⟨isSwipe, g⟩
    · rw [detectGesture_early h now hguard hscan]
      split <;> rfl
    · rcases isSwipe with _ | _
      · rcases hcg : h.calculateGesture now with _ | g2
        · have hcalc := calculateGesture_isSome_of_active h now hact
          rw [hcg] at hcalc
          cases hcalc
        · by_cases hg2 : g2 = UNKNOWN
          · subst hg2
            rw [detectGesture_radial_unknown h now g hguard hscan hcg]
            rfl
          · by_cases hlast : h.lastGesture = g2
            · rw [detectGesture_radial_dup h now g g2 hguard hscan hcg hg2 hlast]
              rfl
            · rw [detectGesture_radial_emit h now g g2 hguard hscan hcg hg2 hlast]
              rfl
      · rw [detectGesture_swipe h now g hguard hscan]
        split <;> rfl

/-- When every active tracker after slot 0 has swiped in the candidate
direction, the loop completes with the swipe flag set. -/
theorem swipeScan_all_same (now : Nat) (l : List (Nat × Finger)) (g : gestureType)
    (hidx : ∀ p ∈ l, p.1 ≠ 0)
    (hall : ∀ p ∈ l, (p.2 : Finger).IsActive = true →
      p.2.hasSwiped DIST_SWIPE now = true ∧ p.2.getDirection = g) :
    swipeScan now l true g = ScanResult.done true g := by
  induction l with
  | nil => rfl
  | cons p rest ih =>
    obtain ⟨i, f⟩ := p
    have ihr := ih (fun q hq => hidx q (List.mem_cons_of_mem _ hq))
      (fun q hq => hall q (List.mem_cons_of_mem _ hq))
    rcases hact : f.IsActive with _ | _
    · simpa [swipeScan, hact] using ihr
    · obtain ⟨hsw, hdir⟩ := hall (i, f) (List.mem_cons_self _ _) hact
      have hi : i ≠ 0 := hidx (i, f) (List.mem_cons_self _ _)
      simpa [swipeScan, hact, hsw, hi, hdir] using ihr

/-- Any active tracker after slot 0 whose direction differs from the
candidate makes the loop break out with the swipe flag cleared. -/
theorem swipeScan_mismatch (now : Nat) (l : List (Nat × Finger)) (g : gestureType)
    (hidx : ∀ p ∈ l, p.1 ≠ 0)
    (hsw : ∀ p ∈ l, (p.2 : Finger).IsActive = true → p.2.hasSwiped DIST_SWIPE now = true)
    (hex : ∃ p ∈ l, (p.2 : Finger).IsActive = true ∧ p.2.getDirection ≠ g) :
    ∀ b, swipeScan now l b g = ScanResult.done false g := by
  induction l with
  | nil => simp at hex
  | cons p rest ih =>
    intro b
    obtain ⟨i, f⟩ := p
    have hi : i ≠ 0 := hidx (i, f) (List.mem_cons_self _ _)
    rcases hact : f.IsActive with _ | _
    · have hex2 : ∃ p ∈ rest, (p.2 : Finger).IsActive = true ∧ p.2.getDirection ≠ g := by
        obtain ⟨q, hq, hqa, hqd⟩ := hex
        rcases List.mem_cons.mp hq with rfl | hq2
        · rw [hact] at hqa; cases hqa
        · exact ⟨q, hq2, hqa, hqd⟩
      have ihr := ih (fun q hq => hidx q (List.mem_cons_of_mem _ hq))
        (fun q hq => hsw q (List.mem_cons_of_mem _ hq)) hex2
      simpa [swipeScan, hact] using ihr b
    · have hswf := hsw (i, f) (List.mem_cons_self _ _) hact
      by_cases hdir : f.getDirection = g
      · have hex2 : ∃ p ∈ rest, (p.2 : Finger).IsActive = true ∧ p.2.getDirection ≠ g := by
          obtain ⟨q, hq, hqa, hqd⟩ := hex
          rcases List.mem_cons.mp hq with rfl | hq2
          · exact absurd hdir hqd
          · exact ⟨q, hq2, hqa, hqd⟩
        have ihr := ih (fun q hq => hidx q (List.mem_cons_of_mem _ hq))
          (fun q hq => hsw q (List.mem_cons_of_mem _ hq)) hex2
        simpa [swipeScan, hact, hswf, hi, hdir] using ihr true
      · simp [swipeScan, hact, hswf, hi, hdir]

theorem slotIndex_isSome (s : Int) (hb : 0 ≤ s ∧ s < 5) :
    ∃ i : Fin 5, slotIndex s = some i :=
  ⟨⟨s.toNat, by omega⟩, dif_pos hb⟩

/-- Branch equation: a slot-select event only assigns the current slot. -/
theorem handleAbsEvent_slot (h : EventHandler) (now : Nat) (e : InputEvent)
    (hcode : e.code = ABS_MT_SLOT) :
    h.handleAbsEvent now e = some { h with currentSlot := e.value } := by
  simp [EventHandler.handleAbsEvent, hcode]

/-- Branch equation: a position-X event updates the tracker of the current
slot in place. -/
theorem handleAbsEvent_posX (h : EventHandler) (now : Nat) (e : InputEvent) (i : Fin 5)
    (hcode : e.code = ABS_MT_POSITION_X) (hslot : slotIndex h.currentSlot = some i) :
    h.handleAbsEvent now e =
      some { h with fingers := Function.update h.fingers i ((h.fingers i).setPositionX e.value) } := by
  simp [EventHandler.handleAbsEvent, hcode, hslot, ABS_MT_SLOT, ABS_MT_POSITION_X,
    ABS_MT_POSITION_Y, ABS_MT_TRACKING_ID]

/-- Branch equation: a position-Y event updates the tracker of the current
slot in place. -/
theorem handleAbsEvent_posY (h : EventHandler) (now : Nat) (e : InputEvent) (i : Fin 5)
    (hcode : e.code = ABS_MT_POSITION_Y) (hslot : slotIndex h.currentSlot = some i) :
    h.handleAbsEvent now e =
      some { h with fingers := Function.update h.fingers i ((h.fingers i).setPositionY e.value) } := by
  simp [EventHandler.handleAbsEvent, hcode, hslot, ABS_MT_SLOT, ABS_MT_POSITION_X,
    ABS_MT_POSITION_Y, ABS_MT_TRACKING_ID]

/-- Branch equation: an ABS event with an unhandled code is ignored. -/
theorem handleAbsEvent_other (h : EventHandler) (now : Nat) (e : InputEvent)
    (h1 : e.code ≠ ABS_MT_SLOT) (h2 : e.code ≠ ABS_MT_TRACKING_ID)
    (h3 : e.code ≠ ABS_MT_POSITION_X) (h4 : e.code ≠ ABS_MT_POSITION_Y) :
    h.handleAbsEvent now e = some h := by
  simp [EventHandler.handleAbsEvent, h1, h2, h3, h4]

/-- Field effects of a tracking-id event: the current slot keeps its
pointer, the addressed tracker is activated or deactivated, every other
tracker keeps its active flag, and the suspended flag and gesture memory
are cleared exactly when the previous finger count was zero. -/
theorem handleAbsEvent_track (h : EventHandler) (now : Nat) (e : InputEvent) (i : Fin 5)
    (hcode : e.code = ABS_MT_TRACKING_ID) (hslot : slotIndex h.currentSlot = some i) :
    ∀ h1, h.handleAbsEvent now e = some h1 →
      h1.suspend = (if h.fingerCount = 0 then false else h.suspend) ∧
      h1.lastGesture = (if h.fingerCount = 0 then UNKNOWN else h.lastGesture) ∧
      h1.currentSlot = h.currentSlot ∧
      (h1.fingers i).IsActive = (if e.value = -1 then false else true) ∧
      (∀ j, j ≠ i → (h1.fingers j).IsActive = (h.fingers j).IsActive) ∧
      h1.checkTimer = now ∧
      h1.fingerCount = (if e.value = -1 then h.fingerCount - 1 else h.fingerCount + 1) := by
  intro h1 habs
  simp only [EventHandler.handleAbsEvent, hcode, hslot] at habs
  rw [if_neg (show ABS_MT_TRACKING_ID ≠ ABS_MT_SLOT from by decide)] at habs
  by_cases hcnt : h.fingerCount = 0
  · rw [if_pos hcnt] at habs
    by_cases hval : e.value = -1
    · rw [if_pos hval] at habs
      cases Option.some.inj habs
      clear habs
      refine ⟨?_, ?_, ?_, ?_, fun j hj => ?_, ?_, ?_⟩ <;>
        simp_all [EventHandler.resetFingers, Finger.reset, Finger.activate, Finger.deactivate,
          Function.update_apply]
    · rw [if_neg hval] at habs
      cases Option.some.inj habs
      clear habs
      refine ⟨?_, ?_, ?_, ?_, fun j hj => ?_, ?_, ?_⟩ <;>
        simp_all [EventHandler.resetFingers, Finger.reset, Finger.activate, Finger.deactivate,
          Function.update_apply]
  · rw [if_neg hcnt] at habs
    by_cases hval : e.value = -1
    · rw [if_pos hval] at habs
      cases Option.some.inj habs
      clear habs
      refine ⟨?_, ?_, ?_, ?_, fun j hj => ?_, ?_, ?_⟩ <;>
        simp_all [EventHandler.resetFingers, Finger.reset, Finger.activate, Finger.deactivate,
          Function.update_apply]
    · rw [if_neg hval] at habs
      cases Option.some.inj habs
      clear habs
      refine ⟨?_, ?_, ?_, ?_, fun j hj => ?_, ?_, ?_⟩ <;>
        simp_all [EventHandler.resetFingers, Finger.reset, Finger.activate, Finger.deactivate,
          Function.update_apply]

/-- Structural facts about any successful detection cycle: the slot
pointer, finger count and configuration are untouched, and any emission
leaves the handler suspended. -/
theorem detectGesture_shape (h : EventHandler) (now : Nat) (h1 : EventHandler)
    (gs : List Gesture) (hd : h.detectGesture now = some (h1, gs)) :
    h1.currentSlot = h.currentSlot ∧ h1.fingerCount = h.fingerCount ∧
      h1.configuredFingers = h.configuredFingers ∧ (gs ≠ [] → h1.suspend = true) := by
  by_cases hguard : (!h.configuredFingers.contains h.fingerCount) = true ∨
      h.fingerCount < 2 ∨ now - h.checkTimer < CHECK_DELAY
  · rw [detectGesture_skip h now hguard] at hd
    simp only [Option.some.injEq, Prod.mk.injEq] at hd
    obtain ⟨rfl, rfl⟩ := hd
    exact ⟨rfl, rfl, rfl, fun hne => absurd rfl hne⟩
  · rcases hscan : swipeScan now (indexedFingerList h) false UNKNOWN with _ | ⟨isSwipe, g⟩
    · rw [detectGesture_early h now hguard hscan] at hd
      split at hd <;> simp only [Option.some.injEq, Prod.mk.injEq] at hd <;>
        obtain ⟨rfl, rfl⟩ := hd <;>
        exact ⟨rfl, rfl, rfl, fun hne => absurd rfl hne⟩
    · rcases isSwipe with _ | _
      · rcases hcg : h.calculateGesture now with _ | g2
        · rw [detectGesture_radial_none h now g hguard hscan hcg] at hd
          cases hd
        · by_cases hg2 : g2 = UNKNOWN
          · subst hg2
            rw [detectGesture_radial_unknown h now g hguard hscan hcg] at hd
            simp only [Option.some.injEq, Prod.mk.injEq] at hd
            obtain ⟨rfl, rfl⟩ := hd
            exact ⟨rfl, rfl, rfl, fun hne => absurd rfl hne⟩
          · by_cases hlast : h.lastGesture = g2
            · rw [detectGesture_radial_dup h now g g2 hguard hscan hcg hg2 hlast] at hd
              simp only [Option.some.injEq, Prod.mk.injEq] at hd
              obtain ⟨rfl, rfl⟩ := hd
              exact ⟨rfl, rfl, rfl, fun hne => absurd rfl hne⟩
            · rw [detectGesture_radial_emit h now g g2 hguard hscan hcg hg2 hlast] at hd
              simp only [Option.some.injEq, Prod.mk.injEq] at hd
              obtain ⟨rfl, rfl⟩ := hd
              exact ⟨rfl, rfl, rfl, fun _ => rfl⟩
      · rw [detectGesture_swipe h now g hguard hscan] at hd
        split at hd <;> simp only [Option.some.injEq, Prod.mk.injEq] at hd <;>
          obtain ⟨rfl, rfl⟩ := hd
        · exact ⟨rfl, rfl, rfl, fun _ => rfl⟩
        · exact ⟨rfl, rfl, rfl, fun hne => absurd rfl hne⟩

/-- One suspended step: a suspended handler emits nothing, and only a
tracking-id event seen at finger count zero can clear the suspension,
which also clears the gesture memory. -/
theorem handleEvent_suspended_step (h : EventHandler) (now : Nat) (e : InputEvent)
    (hsus : h.suspend = true) :
    ∀ h1 gs, h.handleEvent now e = some (h1, gs) →
      gs = [] ∧ (h1.suspend = true ∨
        (e.etype = EV_ABS ∧ e.code = ABS_MT_TRACKING_ID ∧ h.fingerCount = 0 ∧
          h1.suspend = false ∧ h1.lastGesture = UNKNOWN)) := by
  intro h1 gs hev
  by_cases hsyn : e.etype = EV_SYN
  · rw [EventHandler.handleEvent, if_pos hsyn, EventHandler.handleSynEvent,
      if_neg (by simp [hsus] : ¬(e.code = SYN_REPORT ∧ h.suspend = false))] at hev
    simp only [Option.some.injEq, Prod.mk.injEq] at hev
    obtain ⟨rfl, rfl⟩ := hev
    exact ⟨rfl, Or.inl hsus⟩
  · rw [EventHandler.handleEvent, if_neg hsyn] at hev
    by_cases habs : e.etype = EV_ABS
    · rw [if_pos habs] at hev
      rcases hab : h.handleAbsEvent now e with _ | h2
      · rw [hab] at hev; cases hev
      · rw [hab] at hev
        simp only [Option.map_some', Option.some.injEq, Prod.mk.injEq] at hev
        obtain ⟨rfl, rfl⟩ := hev
        refine ⟨rfl, ?_⟩
        by_cases hc1 : e.code = ABS_MT_SLOT
        · rw [handleAbsEvent_slot h now e hc1] at hab
          cases Option.some.inj hab
          exact Or.inl hsus
        · by_cases hc2 : e.code = ABS_MT_TRACKING_ID
          · rcases hsi : slotIndex h.currentSlot with _ | i
            · rw [EventHandler.handleAbsEvent, if_neg (by rw [hc2]; decide), if_pos hc2,
                hsi] at hab
              cases hab
            · have htr := handleAbsEvent_track h now e i hc2 hsi h2 hab
              by_cases hcnt : h.fingerCount = 0
              · right
                exact ⟨habs, hc2, hcnt, by simp [htr.1, hcnt], by simp [htr.2.1, hcnt]⟩
              · left
                rw [htr.1, if_neg hcnt]
                exact hsus
          · by_cases hc3 : e.code = ABS_MT_POSITION_X
            · rcases hsi : slotIndex h.currentSlot with _ | i
              · rw [EventHandler.handleAbsEvent, if_neg (by rw [hc3]; decide),
                  if_neg (by rw [hc3]; decide), if_pos hc3, hsi] at hab
                cases hab
              · rw [handleAbsEvent_posX h now e i hc3 hsi] at hab
                cases Option.some.inj hab
                exact Or.inl hsus
            · by_cases hc4 : e.code = ABS_MT_POSITION_Y
              · rcases hsi : slotIndex h.currentSlot with _ | i
                · rw [EventHandler.handleAbsEvent, if_neg (by rw [hc4]; decide),
                    if_neg (by rw [hc4]; decide), if_neg (by rw [hc4]; decide),
                    if_pos hc4, hsi] at hab
                  cases hab
                · rw [handleAbsEvent_posY h now e i hc4 hsi] at hab
                  cases Option.some.inj hab
                  exact Or.inl hsus
              · rw [handleAbsEvent_other h now e hc1 hc2 hc3 hc4] at hab
                cases Option.some.inj hab
                exact Or.inl hsus
    · rw [if_neg habs] at hev
      simp only [Option.some.injEq, Prod.mk.injEq] at hev
      obtain ⟨rfl, rfl⟩ := hev
      exact ⟨rfl, Or.inl hsus⟩

/-- A suspended handler emits nothing over any event sequence free of
tracking-id events, and stays suspended. -/
theorem ingest_suspended (evs : List (Nat × InputEvent)) :
    ∀ h : EventHandler, h.suspend = true →
      (∀ p ∈ evs, ¬((p.2 : InputEvent).etype = EV_ABS ∧ p.2.code = ABS_MT_TRACKING_ID)) →
      ∀ h2 gs2, ingest h evs = some (h2, gs2) → gs2 = [] ∧ h2.suspend = true := by
  induction evs with
  | nil =>
    intro h hs _ h2 gs2 hi
    simp only [ingest, Option.some.injEq, Prod.mk.injEq] at hi
    obtain ⟨rfl, rfl⟩ := hi
    exact ⟨rfl, hs⟩
  | cons p rest ih =>
    intro h hs hnt h2 gs2 hi
    obtain ⟨t, e⟩ := p
    rcases hev : h.handleEvent t e with _ | ⟨h1, gs⟩
    · simp only [ingest, hev] at hi
      cases hi
    · rcases hrest : ingest h1 rest with _ | ⟨h3, gs3⟩
      · simp only [ingest, hev, hrest] at hi
        cases hi
      · simp only [ingest, hev, hrest, Option.some.injEq, Prod.mk.injEq] at hi
        obtain ⟨rfl, rfl⟩ := hi
        have hstep := handleEvent_suspended_step h t e hs h1 gs hev
        have h1s : h1.suspend = true := by
          rcases hstep.2 with hs1 | ⟨habs, hcode, _, _, _⟩
          · exact hs1
          · exact absurd ⟨habs, hcode⟩ (hnt (t, e) (List.mem_cons_self _ _))
        have hrec := ih h1 h1s (fun q hq => hnt q (List.mem_cons_of_mem _ hq)) h3 gs3 hrest
        exact ⟨by simp [hstep.1, hrec.1], hrec.2⟩

/-- A tracking-id event arriving at finger count zero clears both the
suspended flag and the remembered gesture, emitting nothing. -/
theorem handleEvent_track_clears (h : EventHandler) (now : Nat) (e : InputEvent)
    (habs : e.etype = EV_ABS) (hcode : e.code = ABS_MT_TRACKING_ID)
    (hcnt : h.fingerCount = 0) :
    ∀ h1 gs, h.handleEvent now e = some (h1, gs) →
      h1.suspend = false ∧ h1.lastGesture = UNKNOWN ∧ gs = [] := by
  intro h1 gs hev
  rw [EventHandler.handleEvent, if_neg (by rw [habs]; decide), if_pos habs] at hev
  rcases hab : h.handleAbsEvent now e with _ | h2
  · rw [hab] at hev; cases hev
  · rw [hab] at hev
    simp only [Option.map_some', Option.some.injEq, Prod.mk.injEq] at hev
    obtain ⟨rfl, rfl⟩ := hev
    rcases hsi : slotIndex h.currentSlot with _ | i
    · rw [EventHandler.handleAbsEvent, if_neg (by rw [hcode]; decide), if_pos hcode,
        hsi] at hab
      cases hab
    · have htr := handleAbsEvent_track h now e i hcode hsi h2 hab
      exact ⟨by simp [htr.1, hcnt], by simp [htr.2.1, hcnt], rfl⟩

/-- Every event other than a slot-select leaves the slot pointer alone. -/
theorem handleEvent_currentSlot (h : EventHandler) (now : Nat) (e : InputEvent)
    (hns : ¬(e.etype = EV_ABS ∧ e.code = ABS_MT_SLOT)) :
    ∀ h1 gs, h.handleEvent now e = some (h1, gs) → h1.currentSlot = h.currentSlot := by
  intro h1 gs hev
  by_cases hsyn : e.etype = EV_SYN
  · rw [EventHandler.handleEvent, if_pos hsyn, EventHandler.handleSynEvent] at hev
    split at hev
    · exact (detectGesture_shape h now h1 gs hev).1
    · simp only [Option.some.injEq, Prod.mk.injEq] at hev
      obtain ⟨rfl, rfl⟩ := hev
      rfl
  · rw [EventHandler.handleEvent, if_neg hsyn] at hev
    by_cases habs : e.etype = EV_ABS
    · rw [if_pos habs] at hev
      rcases hab : h.handleAbsEvent now e with _ | h2
      · rw [hab] at hev; cases hev
      · rw [hab] at hev
        simp only [Option.map_some', Option.some.injEq, Prod.mk.injEq] at hev
        obtain ⟨rfl, rfl⟩ := hev
        have hc1 : ¬(e.code = ABS_MT_SLOT) := fun hc => hns ⟨habs, hc⟩
        by_cases hc2 : e.code = ABS_MT_TRACKING_ID
        · rcases hsi : slotIndex h.currentSlot with _ | i
          · rw [EventHandler.handleAbsEvent, if_neg (by rw [hc2]; decide), if_pos hc2,
              hsi] at hab
            cases hab
          · exact (handleAbsEvent_track h now e i hc2 hsi h2 hab).2.2.1
        · by_cases hc3 : e.code = ABS_MT_POSITION_X
          · rcases hsi : slotIndex h.currentSlot with _ | i
            · rw [EventHandler.handleAbsEvent, if_neg (by rw [hc3]; decide),
                if_neg (by rw [hc3]; decide), if_pos hc3, hsi] at hab
              cases hab
            · rw [handleAbsEvent_posX h now e i hc3 hsi] at hab
              cases Option.some.inj hab
              rfl
          · by_cases hc4 : e.code = ABS_MT_POSITION_Y
            · rcases hsi : slotIndex h.currentSlot with _ | i
              · rw [EventHandler.handleAbsEvent, if_neg (by rw [hc4]; decide),
                  if_neg (by rw [hc4]; decide), if_neg (by rw [hc4]; decide),
                  if_pos hc4, hsi] at hab
                cases hab
              · rw [handleAbsEvent_posY h now e i hc4 hsi] at hab
                cases Option.some.inj hab
                rfl
            · rw [handleAbsEvent_other h now e hc1 hc2 hc3 hc4] at hab
              cases Option.some.inj hab
              rfl
    · rw [if_neg habs] at hev
      simp only [Option.some.injEq, Prod.mk.injEq] at hev
      obtain ⟨rfl, rfl⟩ := hev
      rfl

theorem getDirection_eq (f : Finger) :
    f.getDirection =
      if 45 ≤ f.getAngle ∧ f.getAngle ≤ 135 then SWIPE_UP
      else if 135 ≤ f.getAngle ∧ f.getAngle ≤ 225 then SWIPE_LEFT
      else if 225 ≤ f.getAngle ∧ f.getAngle ≤ 315 then SWIPE_DOWN
      else if 315 ≤ f.getAngle ∨ f.getAngle ≤ 45 then SWIPE_RIGHT
      else UNKNOWN := rfl

theorem atan2deg_px (dx : Int) (h : 0 < dx) : atan2deg 0 dx = 0 := by
  simp only [atan2deg]
  split_ifs <;> omega

theorem atan2deg_nx (dx : Int) (h : dx < 0) : atan2deg 0 dx = 180 := by
  simp only [atan2deg]
  split_ifs <;> omega

theorem atan2deg_py (dy : Int) (h : 0 < dy) : atan2deg dy 0 = 90 := by
  simp only [atan2deg]
  split_ifs <;> omega

theorem atan2deg_ny (dy : Int) (h : dy < 0) : atan2deg dy 0 = -90 := by
  simp only [atan2deg]
  split_ifs <;> omega

/-- Pure rightward movement has angle 0. -/
theorem getAngle_right (f : Finger) (hp : f.hasPosition = true) (hy : f.FirstY = f.LastY)
    (hx : f.FirstX < f.LastX) : f.getAngle = 0 := by
  have h1 : f.FirstY - f.LastY = 0 := by omega
  have h2 : atan2deg (f.FirstY - f.LastY) (f.LastX - f.FirstX) = 0 := by
    rw [h1]
    exact atan2deg_px _ (by omega)
  simp [Finger.getAngle, hp, h2]

/-- Pure leftward movement has angle 180. -/
theorem getAngle_left (f : Finger) (hp : f.hasPosition = true) (hy : f.FirstY = f.LastY)
    (hx : f.LastX < f.FirstX) : f.getAngle = 180 := by
  have h1 : f.FirstY - f.LastY = 0 := by omega
  have h2 : atan2deg (f.FirstY - f.LastY) (f.LastX - f.FirstX) = 180 := by
    rw [h1]
    exact atan2deg_nx _ (by omega)
  simp [Finger.getAngle, hp, h2]

/-- Pure screen-up movement (y decreasing) has angle 90. -/
theorem getAngle_up (f : Finger) (hp : f.hasPosition = true) (hx : f.FirstX = f.LastX)
    (hy : f.LastY < f.FirstY) : f.getAngle = 90 := by
  have h1 : f.LastX - f.FirstX = 0 := by omega
  have h2 : atan2deg (f.FirstY - f.LastY) (f.LastX - f.FirstX) = 90 := by
    rw [h1]
    exact atan2deg_py _ (by omega)
  simp [Finger.getAngle, hp, h2]

/-- Pure screen-down movement (y increasing) has angle 270 after the
360-degree normalization. -/
theorem getAngle_down (f : Finger) (hp : f.hasPosition = true) (hx : f.FirstX = f.LastX)
    (hy : f.FirstY < f.LastY) : f.getAngle = 270 := by
  have h1 : f.LastX - f.FirstX = 0 := by omega
  have h2 : atan2deg (f.FirstY - f.LastY) (f.LastX - f.FirstX) = -90 := by
    rw [h1]
    exact atan2deg_ny _ (by omega)
  simp [Finger.getAngle, hp, h2]

/-! # Claim theorems -/

/-- C6: hasSwiped(T) is false without a latched position, false whenever
less than the 50 ms debounce has elapsed since activation regardless of
distance, and otherwise holds exactly when the distance strictly exceeds
the threshold. -/
theorem C6_has_swiped (f : Finger) (T : Int) (now : Nat) :
    (f.hasPosition = false → f.hasSwiped T now = false) ∧
    (now - f.ActivationTime < CHECK_DELAY → f.hasSwiped T now = false) ∧
    (f.hasPosition = true → CHECK_DELAY ≤ now - f.ActivationTime →
      (f.hasSwiped T now = true ↔ T < f.getDistance)) := by
  refine ⟨?_, ?_, ?_⟩
  · intro hnp
    simp [Finger.hasSwiped, hnp]
  · intro ht
    rcases hp : f.hasPosition with _ | _ <;> simp [Finger.hasSwiped, hp, ht]
  · intro hp ht
    simp [Finger.hasSwiped, hp, Nat.not_lt.mpr ht]

/-- C6 witness: a concrete tracker that moved 1200 units, sampled 100 ms
after activation against threshold 1100. -/
theorem C6_has_swiped_witness :
    fingerRight0.hasSwiped 1100 100 = true ↔ (1100 : Int) < fingerRight0.getDistance :=
  (C6_has_swiped fingerRight0 1100 100).2.2 rfl (by decide)

/-- C7: with a latched position, pure axis movements classify as Right,
Left, Up and Down respectively, and the direction is the angle mapped
through the buckets [45,135] to Up, [135,225] to Left, [225,315] to Down
and the remainder to Right, the first matching bucket winning at the
shared boundary angles 45, 135, 225 and 315. -/
theorem C7_direction_buckets (f : Finger) (hp : f.hasPosition = true) :
    (f.FirstY = f.LastY → f.FirstX < f.LastX → f.getDirection = SWIPE_RIGHT) ∧
    (f.FirstY = f.LastY → f.LastX < f.FirstX → f.getDirection = SWIPE_LEFT) ∧
    (f.FirstX = f.LastX → f.LastY < f.FirstY → f.getDirection = SWIPE_UP) ∧
    (f.FirstX = f.LastX → f.FirstY < f.LastY → f.getDirection = SWIPE_DOWN) ∧
    (45 ≤ f.getAngle → f.getAngle ≤ 135 → f.getDirection = SWIPE_UP) ∧
    (135 < f.getAngle → f.getAngle ≤ 225 → f.getDirection = SWIPE_LEFT) ∧
    (225 < f.getAngle → f.getAngle ≤ 315 → f.getDirection = SWIPE_DOWN) ∧
    (315 < f.getAngle ∨ f.getAngle < 45 → f.getDirection = SWIPE_RIGHT) ∧
    (f.getAngle = 45 → f.getDirection = SWIPE_UP) ∧
    (f.getAngle = 135 → f.getDirection = SWIPE_UP) ∧
    (f.getAngle = 225 → f.getDirection = SWIPE_LEFT) ∧
    (f.getAngle = 315 → f.getDirection = SWIPE_DOWN) := by
  refine ⟨?_, ?_, ?_, ?_, ?_, ?_, ?_, ?_, ?_, ?_, ?_, ?_⟩
  · intro hy hx
    rw [getDirection_eq, getAngle_right f hp hy hx]
    decide
  · intro hy hx
    rw [getDirection_eq, getAngle_left f hp hy hx]
    decide
  · intro hx hy
    rw [getDirection_eq, getAngle_up f hp hx hy]
    decide
  · intro hx hy
    rw [getDirection_eq, getAngle_down f hp hx hy]
    decide
  all_goals
    rw [getDirection_eq]
    intro ha
    first
      | (intro hb; split_ifs <;> first | rfl | omega)
      | (split_ifs <;> first | rfl | omega)

/-- C7 witness: the concrete rightward tracker classifies as a right
swipe. -/
theorem C7_direction_buckets_witness : fingerRight0.getDirection = SWIPE_RIGHT :=
  (C7_direction_buckets fingerRight0 rfl).1 rfl (by decide)

theorem applyUpdates_keepX (us : List PosUpdate) :
    ∀ f : Finger, f.HasPositionX = true →
      (applyUpdates f us).FirstX = f.FirstX ∧ (applyUpdates f us).HasPositionX = true := by
  induction us with
  | nil => intro f hf; exact ⟨rfl, hf⟩
  | cons u rest ih =>
    intro f hf
    cases u with
    | px x =>
      have h1 : (f.setPositionX x).FirstX = f.FirstX := by simp [Finger.setPositionX, hf]
      have h2 : (f.setPositionX x).HasPositionX = true := by simp [Finger.setPositionX, hf]
      have := ih (f.setPositionX x) h2
      exact ⟨by rw [applyUpdates, this.1, h1], by rw [applyUpdates, this.2]⟩
    | py y =>
      have h1 : (f.setPositionY y).FirstX = f.FirstX := by
        rcases hy : f.HasPositionY with _ | _ <;> simp [Finger.setPositionY, hy]
      have h2 : (f.setPositionY y).HasPositionX = true := by
        rcases hy : f.HasPositionY with _ | _ <;> simp [Finger.setPositionY, hy, hf]
      have := ih (f.setPositionY y) h2
      exact ⟨by rw [applyUpdates, this.1, h1], by rw [applyUpdates, this.2]⟩

theorem applyUpdates_keepY (us : List PosUpdate) :
    ∀ f : Finger, f.HasPositionY = true →
      (applyUpdates f us).FirstY = f.FirstY ∧ (applyUpdates f us).HasPositionY = true := by
  induction us with
  | nil => intro f hf; exact ⟨rfl, hf⟩
  | cons u rest ih =>
    intro f hf
    cases u with
    | py y =>
      have h1 : (f.setPositionY y).FirstY = f.FirstY := by simp [Finger.setPositionY, hf]
      have h2 : (f.setPositionY y).HasPositionY = true := by simp [Finger.setPositionY, hf]
      have := ih (f.setPositionY y) h2
      exact ⟨by rw [applyUpdates, this.1, h1], by rw [applyUpdates, this.2]⟩
    | px x =>
      have h1 : (f.setPositionX x).FirstY = f.FirstY := by
        rcases hx : f.HasPositionX with _ | _ <;> simp [Finger.setPositionX, hx]
      have h2 : (f.setPositionX x).HasPositionY = true := by
        rcases hx : f.HasPositionX with _ | _ <;> simp [Finger.setPositionX, hx, hf]
      have := ih (f.setPositionX x) h2
      exact ⟨by rw [applyUpdates, this.1, h1], by rw [applyUpdates, this.2]⟩

/-- C8: after a reset both latch flags are clear; the first set_x or set_y
call latches the first position and sets the flag; once the flag is set,
no sequence of further position updates changes the latched first
position; and every call overwrites the last position with its value. -/
theorem C8_position_latching (f : Finger) (x y : Int) (now : Nat) (us : List PosUpdate) :
    ((f.reset now).HasPositionX = false ∧ (f.reset now).HasPositionY = false) ∧
    (f.HasPositionX = false →
      (f.setPositionX x).FirstX = x ∧ (f.setPositionX x).HasPositionX = true) ∧
    (f.HasPositionY = false →
      (f.setPositionY y).FirstY = y ∧ (f.setPositionY y).HasPositionY = true) ∧
    (f.setPositionX x).LastX = x ∧ (f.setPositionY y).LastY = y ∧
    (f.HasPositionX = true → (applyUpdates f us).FirstX = f.FirstX) ∧
    (f.HasPositionY = true → (applyUpdates f us).FirstY = f.FirstY) ∧
    (f.HasPositionX = false → (applyUpdates (f.setPositionX x) us).FirstX = x) ∧
    (f.HasPositionY = false → (applyUpdates (f.setPositionY y) us).FirstY = y) := by
  refine ⟨⟨rfl, rfl⟩, ?_, ?_, ?_, ?_, ?_, ?_, ?_, ?_⟩
  · intro hf
    exact ⟨by simp [Finger.setPositionX, hf], by simp [Finger.setPositionX, hf]⟩
  · intro hf
    exact ⟨by simp [Finger.setPositionY, hf], by simp [Finger.setPositionY, hf]⟩
  · rcases hx : f.HasPositionX with _ | _ <;> simp [Finger.setPositionX, hx]
  · rcases hy : f.HasPositionY with _ | _ <;> simp [Finger.setPositionY, hy]
  · intro hf
    exact (applyUpdates_keepX us f hf).1
  · intro hf
    exact (applyUpdates_keepY us f hf).1
  · intro hf
    have h2 : (f.setPositionX x).HasPositionX = true := by simp [Finger.setPositionX, hf]
    rw [(applyUpdates_keepX us _ h2).1]
    simp [Finger.setPositionX, hf]
  · intro hf
    have h2 : (f.setPositionY y).HasPositionY = true := by simp [Finger.setPositionY, hf]
    rw [(applyUpdates_keepY us _ h2).1]
    simp [Finger.setPositionY, hf]

/-- C8 witness: a fresh tracker latches the first update at 10 and keeps
it across a mixed sequence of later updates. -/
theorem C8_position_latching_witness :
    (applyUpdates (latchFinger.setPositionX 10) latchUpdates).FirstX = 10 :=
  (C8_position_latching latchFinger 10 20 0 latchUpdates).2.2.2.2.2.2.2.1 rfl

/-- C9: the circumference of a two-point list is the single direct
distance between the points, not twice it, and the circumference of the
four corners of the axis-aligned square of side 10 is 40. -/
theorem C9_circumference_eval (p q : Int × Int) :
    calculateCircumference [p, q] = some (calculateDistance p.1 p.2 q.1 q.2) ∧
    calculateCircumference
        [((0 : Int), (0 : Int)), ((0 : Int), (10 : Int)),
          ((10 : Int), (10 : Int)), ((10 : Int), (0 : Int))] = some 40 :=
  ⟨rfl, by decide⟩

/-- An ABS event is handled without panic when the current slot is in
bounds for the codes that index the tracker array. -/
theorem handleAbsEvent_isSome (h : EventHandler) (now : Nat) (e : InputEvent)
    (hb : e.code = ABS_MT_TRACKING_ID ∨ e.code = ABS_MT_POSITION_X ∨ e.code = ABS_MT_POSITION_Y →
      0 ≤ h.currentSlot ∧ h.currentSlot < 5) :
    (h.handleAbsEvent now e).isSome = true := by
  by_cases hc1 : e.code = ABS_MT_SLOT
  · rw [handleAbsEvent_slot h now e hc1]
    rfl
  · by_cases hc2 : e.code = ABS_MT_TRACKING_ID
    · obtain ⟨i, hsi⟩ := slotIndex_isSome _ (hb (Or.inl hc2))
      simp only [EventHandler.handleAbsEvent, hc2, hsi]
      rw [if_neg (by decide : ¬(ABS_MT_TRACKING_ID = ABS_MT_SLOT))]
      split_ifs <;> rfl
    · by_cases hc3 : e.code = ABS_MT_POSITION_X
      · obtain ⟨i, hsi⟩ := slotIndex_isSome _ (hb (Or.inr (Or.inl hc3)))
        rw [handleAbsEvent_posX h now e i hc3 hsi]
        rfl
      · by_cases hc4 : e.code = ABS_MT_POSITION_Y
        · obtain ⟨i, hsi⟩ := slotIndex_isSome _ (hb (Or.inr (Or.inr hc4)))
          rw [handleAbsEvent_posY h now e i hc4 hsi]
          rfl
        · rw [handleAbsEvent_other h now e hc1 hc2 hc3 hc4]
          rfl

/-- C1 (amended): handling one event never fails provided that (i) for
tracking-id and position updates the current slot lies in 0..4, and (ii) a
frame report that actually triggers detection (not suspended, configured
count of at least 2, debounce passed) finds at least one active tracker.
Without these conditions ingestion can panic, as the counterexample
shows. -/
theorem C1_no_panic (h : EventHandler) (now : Nat) (e : InputEvent)
    (hslot : e.etype = EV_ABS →
      e.code = ABS_MT_TRACKING_ID ∨ e.code = ABS_MT_POSITION_X ∨ e.code = ABS_MT_POSITION_Y →
      0 ≤ h.currentSlot ∧ h.currentSlot < 5)
    (hactive : e.etype = EV_SYN → e.code = SYN_REPORT → h.suspend = false →
      ¬((!h.configuredFingers.contains h.fingerCount) = true ∨ h.fingerCount < 2 ∨
        now - h.checkTimer < CHECK_DELAY) →
      ∃ i : Fin 5, (h.fingers i).IsActive = true) :
    (h.handleEvent now e).isSome = true := by
  by_cases hsyn : e.etype = EV_SYN
  · rw [EventHandler.handleEvent, if_pos hsyn, EventHandler.handleSynEvent]
    by_cases hrep : e.code = SYN_REPORT ∧ h.suspend = false
    · rw [if_pos hrep]
      by_cases hguard : (!h.configuredFingers.contains h.fingerCount) = true ∨
          h.fingerCount < 2 ∨ now - h.checkTimer < CHECK_DELAY
      · rw [detectGesture_skip h now hguard]
        rfl
      · exact detectGesture_isSome_of_active h now (hactive hsyn hrep.1 hrep.2 hguard)
    · rw [if_neg hrep]
      rfl
  · rw [EventHandler.handleEvent, if_neg hsyn]
    by_cases habs : e.etype = EV_ABS
    · rw [if_pos habs]
      have hab := handleAbsEvent_isSome h now e (hslot habs)
      rcases hab2 : h.handleAbsEvent now e with _ | h2
      · rw [hab2] at hab
        cases hab
      · rfl
    · rw [if_neg habs]
      rfl

/-- C1 witness: a position update on the in-bounds default slot of the
fresh handler is handled. -/
theorem C1_no_panic_witness :
    ((initialHandler [2]).handleEvent 0 ⟨EV_ABS, ABS_MT_POSITION_X, 100⟩).isSome = true :=
  C1_no_panic (initialHandler [2]) 0 ⟨EV_ABS, ABS_MT_POSITION_X, 100⟩
    (fun _ _ => by decide) (fun hsyn _ _ _ => absurd hsyn (by decide))

/-- C1 counterexample: ingestion does fail on malformed input. A
slot-select of 7 followed by a position update indexes the tracker array
out of range, and a frame report reaching detection with finger count 2
but no active tracker drives calculateCircumference into the empty-slice
panic; both runs return the panic value. -/
theorem C1_counterexample :
    (ingest (initialHandler [2]) slotOutOfRangeSeq).isSome = false ∧
    (ingest (initialHandler [2]) emptyDetectSeq).isSome = false := by
  decide

/-- C2 (amended): in the straight-swipe pass, assuming every active
tracker has swiped past 1100 units, the candidate direction is recorded
only from the tracker in slot 0: when slot 0 is active the pass succeeds
exactly on unanimous direction and any differing subsequent tracker
disqualifies with the slot-0 candidate retained; when slot 0 is inactive,
the first active tracker is compared against the Unknown sentinel and
always disqualifies the swipe. -/
theorem C2_swipe_pass (h : EventHandler) (now : Nat)
    (hsw : ∀ i : Fin 5, (h.fingers i).IsActive = true →
      (h.fingers i).hasSwiped DIST_SWIPE now = true) :
    ((h.fingers 0).IsActive = true →
      (∀ i : Fin 5, (h.fingers i).IsActive = true →
        (h.fingers i).getDirection = (h.fingers 0).getDirection) →
      swipeScan now (indexedFingerList h) false UNKNOWN =
        ScanResult.done true ((h.fingers 0).getDirection)) ∧
    ((h.fingers 0).IsActive = true → ∀ j : Fin 5, j ≠ 0 →
      (h.fingers j).IsActive = true →
      (h.fingers j).getDirection ≠ (h.fingers 0).getDirection →
      swipeScan now (indexedFingerList h) false UNKNOWN =
        ScanResult.done false ((h.fingers 0).getDirection)) ∧
    ((h.fingers 0).IsActive = false → (∃ i : Fin 5, (h.fingers i).IsActive = true) →
      swipeScan now (indexedFingerList h) false UNKNOWN =
        ScanResult.done false UNKNOWN) := by
  have hlist : indexedFingerList h = (0, h.fingers 0) ::
      [(1, h.fingers 1), (2, h.fingers 2), (3, h.fingers 3), (4, h.fingers 4)] := rfl
  refine ⟨?_, ?_, ?_⟩
  · intro h0 hdirs
    rw [hlist, swipeScan, if_neg (by simp [h0]), if_pos (hsw 0 h0), if_pos rfl]
    apply swipeScan_all_same
    · intro p hp
      simp only [List.mem_cons, List.not_mem_nil, or_false] at hp
      rcases hp with rfl | rfl | rfl | rfl <;> simp
    · intro p hp hact
      simp only [List.mem_cons, List.not_mem_nil, or_false] at hp
      rcases hp with rfl | rfl | rfl | rfl <;> exact ⟨hsw _ hact, hdirs _ hact⟩
  · intro h0 j hj hjact hjdir
    rw [hlist, swipeScan, if_neg (by simp [h0]), if_pos (hsw 0 h0), if_pos rfl]
    refine swipeScan_mismatch now _ _ ?_ ?_ ?_ true
    · intro p hp
      simp only [List.mem_cons, List.not_mem_nil, or_false] at hp
      rcases hp with rfl | rfl | rfl | rfl <;> simp
    · intro p hp hact
      simp only [List.mem_cons, List.not_mem_nil, or_false] at hp
      rcases hp with rfl | rfl | rfl | rfl <;> exact hsw _ hact
    · fin_cases j
      · exact absurd rfl hj
      · exact ⟨(1, h.fingers 1), by simp, hjact, hjdir⟩
      · exact ⟨(2, h.fingers 2), by simp, hjact, hjdir⟩
      · exact ⟨(3, h.fingers 3), by simp, hjact, hjdir⟩
      · exact ⟨(4, h.fingers 4), by simp, hjact, hjdir⟩
  · intro h0 hex
    rw [hlist, swipeScan, if_pos (by simp [h0])]
    refine swipeScan_mismatch now _ UNKNOWN ?_ ?_ ?_ false
    · intro p hp
      simp only [List.mem_cons, List.not_mem_nil, or_false] at hp
      rcases hp with rfl | rfl | rfl | rfl <;> simp
    · intro p hp hact
      simp only [List.mem_cons, List.not_mem_nil, or_false] at hp
      rcases hp with rfl | rfl | rfl | rfl <;> exact hsw _ hact
    · obtain ⟨i, hi⟩ := hex
      fin_cases i
      · have hi0 : (h.fingers 0).IsActive = true := hi
        rw [h0] at hi0
        cases hi0
      · exact ⟨(1, h.fingers 1), by simp, hi, getDirection_ne_unknown _⟩
      · exact ⟨(2, h.fingers 2), by simp, hi, getDirection_ne_unknown _⟩
      · exact ⟨(3, h.fingers 3), by simp, hi, getDirection_ne_unknown _⟩
      · exact ⟨(4, h.fingers 4), by simp, hi, getDirection_ne_unknown _⟩

set_option maxRecDepth 40000 in
/-- C2 witness: with fingers on slots 0 and 1 both swiping right, the
pass records the slot-0 candidate and succeeds. -/
theorem C2_swipe_pass_witness :
    swipeScan 100 (indexedFingerList handlerSlots01) false UNKNOWN =
      ScanResult.done true ((handlerSlots01.fingers 0).getDirection) :=
  (C2_swipe_pass handlerSlots01 100 (by decide)).1 (by decide) (by decide)

set_option maxRecDepth 40000 in
set_option maxHeartbeats 1000000 in
/-- C2 counterexample: with fingers on slots 1 and 2 only, both active
trackers have swiped right past the threshold, yet the pass disqualifies
the swipe (the first active tracker is not at loop index 0) and the cycle
classifies a Spread instead of the claimed right swipe. -/
theorem C2_counterexample :
    (handlerSlots12.fingers 0).IsActive = false ∧
    (handlerSlots12.fingers 1).IsActive = true ∧
    (handlerSlots12.fingers 2).IsActive = true ∧
    (handlerSlots12.fingers 3).IsActive = false ∧
    (handlerSlots12.fingers 4).IsActive = false ∧
    (handlerSlots12.fingers 1).hasSwiped DIST_SWIPE 100 = true ∧
    (handlerSlots12.fingers 2).hasSwiped DIST_SWIPE 100 = true ∧
    (handlerSlots12.fingers 1).getDirection = SWIPE_RIGHT ∧
    (handlerSlots12.fingers 2).getDirection = SWIPE_RIGHT ∧
    swipeScan 100 (indexedFingerList handlerSlots12) false UNKNOWN =
      ScanResult.done false UNKNOWN ∧
    (handlerSlots12.detectGesture 100).map Prod.snd =
      some [(⟨SPREAD, 2⟩ : Gesture)] := by
  decide

/-- C3 (amended): when the radial pass runs (no swipe consensus) and
returns the UNKNOWN sentinel because some active tracker has not moved
past 500 units, the cycle emits nothing, but the detector state does
change: every tracker is reset and the reset timer is restamped to now,
exactly as after a completed classification. -/
theorem C3_radial_unknown_resets (h : EventHandler) (now : Nat) (g : gestureType)
    (hcfg : h.configuredFingers.contains h.fingerCount = true)
    (hcnt : 2 ≤ h.fingerCount)
    (htd : CHECK_DELAY ≤ now - h.checkTimer)
    (hscan : swipeScan now (indexedFingerList h) false UNKNOWN = ScanResult.done false g)
    (hcalc : h.calculateGesture now = some UNKNOWN) :
    h.detectGesture now = some (h.resetFingers now, []) := by
  have hguard : ¬((!h.configuredFingers.contains h.fingerCount) = true ∨ h.fingerCount < 2 ∨
      now - h.checkTimer < CHECK_DELAY) := by
    push_neg
    exact ⟨by simpa using hcfg, by omega, by omega⟩
  exact detectGesture_radial_unknown h now g hguard hscan hcalc

set_option maxRecDepth 40000 in
/-- C3 witness: the mismatch state with a short third finger goes through
the radial pass, returns UNKNOWN, and the cycle resets the trackers. -/
theorem C3_radial_unknown_resets_witness :
    handlerMismatch.detectGesture 100 = some (handlerMismatch.resetFingers 100, []) :=
  C3_radial_unknown_resets handlerMismatch 100 SWIPE_RIGHT (by decide) (by decide)
    (by decide) (by decide) (by decide)

set_option maxRecDepth 40000 in
set_option maxHeartbeats 1000000 in
/-- C3 counterexample: the radial pass runs with an active tracker that
has not moved past 500 units (calculateGesture returns UNKNOWN), yet the
cycle does change detector state: the reset timer is restamped from 0 to
100 and the latched position of tracker 0 is cleared. -/
theorem C3_counterexample :
    (handlerMismatch.fingers 2).IsActive = true ∧
    (handlerMismatch.fingers 2).hasSwiped DIST_OTHER 100 = false ∧
    handlerMismatch.calculateGesture 100 = some UNKNOWN ∧
    swipeScan 100 (indexedFingerList handlerMismatch) false UNKNOWN =
      ScanResult.done false SWIPE_RIGHT ∧
    handlerMismatch.checkTimer = 0 ∧
    (handlerMismatch.fingers 0).HasPositionX = true ∧
    handlerMismatch.detectGesture 100 = some (handlerMismatch.resetFingers 100, []) ∧
    (handlerMismatch.resetFingers 100).checkTimer = 100 ∧
    ((handlerMismatch.resetFingers 100).fingers 0).HasPositionX = false := by
  decide

/-- C4: once a gesture is emitted the suspended flag is set; while
suspended no event emits a gesture, and only a tracking-id event arriving
at live finger count 0 clears the suspension, clearing the last-gesture
memory with it; over any tracking-free event sequence a suspended handler
emits nothing and stays suspended. -/
theorem C4_suppression (h : EventHandler) (now : Nat) (e : InputEvent) :
    (∀ h1 gs, h.detectGesture now = some (h1, gs) → gs ≠ [] → h1.suspend = true) ∧
    (h.suspend = true → ∀ h1 gs, h.handleEvent now e = some (h1, gs) →
      gs = [] ∧ (h1.suspend = false →
        e.etype = EV_ABS ∧ e.code = ABS_MT_TRACKING_ID ∧ h.fingerCount = 0 ∧
          h1.lastGesture = UNKNOWN)) ∧
    (e.etype = EV_ABS → e.code = ABS_MT_TRACKING_ID → h.fingerCount = 0 →
      ∀ h1 gs, h.handleEvent now e = some (h1, gs) →
        h1.suspend = false ∧ h1.lastGesture = UNKNOWN ∧ gs = []) ∧
    (h.suspend = true → ∀ evs : List (Nat × InputEvent),
      (∀ p ∈ evs, ¬((p.2 : InputEvent).etype = EV_ABS ∧ p.2.code = ABS_MT_TRACKING_ID)) →
      ∀ h2 gs2, ingest h evs = some (h2, gs2) → gs2 = [] ∧ h2.suspend = true) := by
  refine ⟨?_, ?_, ?_, ?_⟩
  · intro h1 gs hd hne
    exact (detectGesture_shape h now h1 gs hd).2.2.2 hne
  · intro hsus h1 gs hev
    have hstep := handleEvent_suspended_step h now e hsus h1 gs hev
    refine ⟨hstep.1, ?_⟩
    intro hs1
    rcases hstep.2 with hs2 | ⟨ha, hb, hc, _, hd2⟩
    · rw [hs1] at hs2
      cases hs2
    · exact ⟨ha, hb, hc, hd2⟩
  · intro ha hb hc h1 gs hev
    have hcl := handleEvent_track_clears h now e ha hb hc h1 gs hev
    exact ⟨hcl.1, hcl.2.1, hcl.2.2⟩
  · intro hsus evs hnt h2 gs2 hi
    exact ingest_suspended evs h hsus hnt h2 gs2 hi

/-- C4 witness: a suspended handler remembering a Pinch receives a
touch-down tracking event at finger count 0; the suspension and the
gesture memory are cleared and nothing is emitted. -/
theorem C4_suppression_witness :
    (suspendedHandler.handleEvent 200 trackEvent9).map
      (fun p => (p.1.suspend, p.1.lastGesture, p.2)) =
      some (false, UNKNOWN, ([] : List Gesture)) := by
  have hres : suspendedHandler.handleEvent 200 trackEvent9 = some (clearedHandler, []) := by
    decide
  have h3 := (C4_suppression suspendedHandler 200 trackEvent9).2.2.1 (by decide) (by decide)
    (by decide) clearedHandler [] hres
  rw [hres]
  simp [h3.1, h3.2.1]

/-- C5: whenever the radial pass completes (some tracker active and every
active tracker past the 500-unit threshold), both circumferences are
computed and the classification is Pinch exactly when the start
circumference strictly exceeds the end circumference, and Spread
otherwise, including the equal case. -/
theorem C5_radial_classification (h : EventHandler) (now : Nat)
    (hact : ∃ i : Fin 5, (h.fingers i).IsActive = true)
    (hsw : ∀ i : Fin 5, (h.fingers i).IsActive = true →
      (h.fingers i).hasSwiped DIST_OTHER now = true) :
    ∃ s e startC endC,
      collectPositions now (fingerList h) = some (s, e) ∧
      calculateCircumference s = some startC ∧
      calculateCircumference e = some endC ∧
      (endC < startC → h.calculateGesture now = some PINCH) ∧
      (startC ≤ endC → h.calculateGesture now = some SPREAD) := by
  have hsw2 : ∀ f ∈ fingerList h, f.IsActive = true → f.hasSwiped DIST_OTHER now = true := by
    intro f hf hfa
    simp only [fingerList, List.mem_cons, List.not_mem_nil, or_false] at hf
    rcases hf with rfl | rfl | rfl | rfl | rfl <;> exact hsw _ hfa
  obtain ⟨s, e, hc⟩ := collectPositions_isSome_of_swiped now (fingerList h) hsw2
  obtain ⟨i, hi⟩ := hact
  have hs : s ≠ [] := by
    intro hnil
    have hall := collectPositions_nil_inactive now (fingerList h) s e hc hnil (h.fingers i)
      (mem_fingerList h i)
    rw [hi] at hall
    cases hall
  have he : e ≠ [] := by
    intro hnil
    have hlen := collectPositions_lengths now (fingerList h) s e hc
    rw [hnil] at hlen
    exact hs (List.eq_nil_of_length_eq_zero hlen)
  have h1 := calculateCircumference_isSome s hs
  have h2 := calculateCircumference_isSome e he
  rcases hcs : calculateCircumference s with _ | cs
  · rw [hcs] at h1
    cases h1
  rcases hce : calculateCircumference e with _ | ce
  · rw [hce] at h2
    cases h2
  refine ⟨s, e, cs, ce, hc, hcs, hce, ?_, ?_⟩
  · intro hlt
    simp only [EventHandler.calculateGesture, hc, hcs, hce]
    rw [if_pos hlt]
  · intro hle
    simp only [EventHandler.calculateGesture, hc, hcs, hce]
    rw [if_neg (by omega)]

set_option maxRecDepth 40000 in
/-- C5 witness: the two-finger pinch state completes the radial pass with
start circumference 1300 and end circumference 100. -/
theorem C5_radial_classification_witness :
    ∃ s e startC endC,
      collectPositions 100 (fingerList handlerPinch) = some (s, e) ∧
      calculateCircumference s = some startC ∧
      calculateCircumference e = some endC ∧
      (endC < startC → handlerPinch.calculateGesture 100 = some PINCH) ∧
      (startC ≤ endC → handlerPinch.calculateGesture 100 = some SPREAD) :=
  C5_radial_classification handlerPinch 100 ⟨0, by decide⟩ (by decide)

/-- C10: the slot pointer set by a slot-select event persists across every
other event (frame syncs, finger lifts, position updates included), a
slot-select assigns it, and the position and tracking updates address
exactly the tracker of the current slot, leaving the others alone. -/
theorem C10_slot_persistence (h : EventHandler) (now : Nat) (e : InputEvent) :
    (∀ h1 gs, h.handleEvent now e = some (h1, gs) →
      ¬(e.etype = EV_ABS ∧ e.code = ABS_MT_SLOT) → h1.currentSlot = h.currentSlot) ∧
    (e.etype = EV_ABS → e.code = ABS_MT_SLOT →
      h.handleEvent now e = some ({ h with currentSlot := e.value }, [])) ∧
    (e.etype = EV_ABS → e.code = ABS_MT_POSITION_X →
      ∀ i, slotIndex h.currentSlot = some i →
        h.handleEvent now e =
          some ({ h with fingers := Function.update h.fingers i ((h.fingers i).setPositionX e.value) }, [])) ∧
    (e.etype = EV_ABS → e.code = ABS_MT_POSITION_Y →
      ∀ i, slotIndex h.currentSlot = some i →
        h.handleEvent now e =
          some ({ h with fingers := Function.update h.fingers i ((h.fingers i).setPositionY e.value) }, [])) ∧
    (e.etype = EV_ABS → e.code = ABS_MT_TRACKING_ID →
      ∀ i, slotIndex h.currentSlot = some i →
      ∀ h1 gs, h.handleEvent now e = some (h1, gs) →
        h1.currentSlot = h.currentSlot ∧
        (h1.fingers i).IsActive = (if e.value = -1 then false else true) ∧
        (∀ j, j ≠ i → (h1.fingers j).IsActive = (h.fingers j).IsActive)) := by
  refine ⟨?_, ?_, ?_, ?_, ?_⟩
  · intro h1 gs hev hns
    exact handleEvent_currentSlot h now e hns h1 gs hev
  · intro ha hc
    rw [EventHandler.handleEvent, if_neg (by rw [ha]; decide), if_pos ha,
      handleAbsEvent_slot h now e hc]
    rfl
  · intro ha hc i hsi
    rw [EventHandler.handleEvent, if_neg (by rw [ha]; decide), if_pos ha,
      handleAbsEvent_posX h now e i hc hsi]
    rfl
  · intro ha hc i hsi
    rw [EventHandler.handleEvent, if_neg (by rw [ha]; decide), if_pos ha,
      handleAbsEvent_posY h now e i hc hsi]
    rfl
  · intro ha hc i hsi h1 gs hev
    rw [EventHandler.handleEvent, if_neg (by rw [ha]; decide), if_pos ha] at hev
    rcases hab : h.handleAbsEvent now e with _ | h2
    · rw [hab] at hev
      cases hev
    · rw [hab] at hev
      simp only [Option.map_some', Option.some.injEq, Prod.mk.injEq] at hev
      obtain ⟨rfl, rfl⟩ := hev
      have htr := handleAbsEvent_track h now e i hc hsi h2 hab
      exact ⟨htr.2.2.1, htr.2.2.2.1, htr.2.2.2.2.1⟩

/-- C10 witness: a position update with the default slot pointer applies
to tracker 0 of the fresh handler. -/
theorem C10_slot_persistence_witness :
    (initialHandler []).handleEvent 0 ⟨EV_ABS, ABS_MT_POSITION_X, 42⟩ =
      some ({ initialHandler [] with
              fingers := Function.update (initialHandler []).fingers (0 : Fin 5) (((initialHandler []).fingers (0 : Fin 5)).setPositionX 42) },
        []) :=
  (C10_slot_persistence (initialHandler []) 0 ⟨EV_ABS, ABS_MT_POSITION_X, 42⟩).2.2.1
    rfl rfl (0 : Fin 5) (by decide)
